import Mathlib

/-!
Verification of the `Monitor` piece base class and the
`coreMessageDeleteBulk` event handler of the klasa repository fragment.

The embedding mirrors the two JavaScript source files:

* `Monitor` (src/unnamed/part_000): a configuration-holding piece with a
  boolean `shouldRun` filter, a `toJSON` serialization view, and no-op
  `run` / `init` hooks.
* `coreMessageDeleteBulk` (src/dist/src/events/coreMessageDeleteBulk.js):
  an event handler that, for every bulk-deleted message whose originating
  command is deletable, deletes each recorded response that is not already
  deleted, awaiting each deletion in turn.
-/

namespace Klasa

/-- A Discord user, as seen by the filter: an identity and a bot flag.
`this.client.user === msg.author` in the source compares user identities;
we model that with decidable equality on `User`. -/
structure User where
  id : Nat
  bot : Bool
deriving DecidableEq, Repr

/-- The slice of the Klasa client that `Monitor.shouldRun` reads:
`client.user`, the client's own user. -/
structure Client where
  user : User
deriving DecidableEq, Repr

/-- The slice of a `KlasaMessage` read by `Monitor.shouldRun`:
the author (with its bot flag) and the webhook id, which is present
(`some`) exactly when `msg.webhookID` is truthy in the source. -/
structure KlasaMessage where
  author : User
  webhookID : Option Nat
deriving DecidableEq, Repr

/-- The fields assigned by the `Monitor` constructor
(src/unnamed/part_000, lines 29-100). -/
structure Monitor where
  client : Client
  dir : String
  file : String
  name : String
  type : String
  enabled : Bool
  ignoreBots : Bool
  ignoreSelf : Bool
  ignoreOthers : Bool
  ignoreWebhooks : Bool
deriving Repr

/-- The options object after `mergeDefault` (the merge utility itself is
external to this fragment): the recognized keys of `MonitorOptions`.
`name` is `none` when the merged options carry no name. -/
structure MonitorOptions where
  name : Option String
  enabled : Bool
  ignoreBots : Bool
  ignoreSelf : Bool
  ignoreOthers : Bool
  ignoreWebhooks : Bool
deriving Repr

/-- JavaScript string falsiness for the merged `options.name`:
`undefined` and the empty string are falsy. -/
def jsStrFalsy : Option String → Bool
  | none => true
  | some s => s.isEmpty

/-- The `Monitor` constructor body (src/unnamed/part_000, lines 29-100),
applied to already-merged options.  `options.name || file.slice(0, -3)`
becomes: the merged name when it is a non-empty string, otherwise `file`
with its last three characters removed (`String.dropRight file 3` is the
character-level meaning of `file.slice(0, -3)`). -/
def Monitor.construct (client : Client) (dir file : String)
    (options : MonitorOptions) : Monitor :=
  { client := client
    dir := dir
    file := file
    name := if jsStrFalsy options.name then file.dropRight 3
            else options.name.getD ""
    type := "monitor"
    enabled := options.enabled
    ignoreBots := options.ignoreBots
    ignoreSelf := options.ignoreSelf
    ignoreOthers := options.ignoreOthers
    ignoreWebhooks := options.ignoreWebhooks }

/-- `Monitor.shouldRun` (src/unnamed/part_000, lines 129-135):
`this.enabled && !(this.ignoreBots && msg.author.bot) &&
 !(this.ignoreSelf && this.client.user === msg.author) &&
 !(this.ignoreOthers && this.client.user !== msg.author) &&
 !(this.ignoreWebhooks && msg.webhookID)`. -/
def Monitor.shouldRun (m : Monitor) (msg : KlasaMessage) : Bool :=
  m.enabled &&
    !(m.ignoreBots && msg.author.bot) &&
    !(m.ignoreSelf && (m.client.user == msg.author)) &&
    !(m.ignoreOthers && !(m.client.user == msg.author)) &&
    !(m.ignoreWebhooks && msg.webhookID.isSome)

/-- `Monitor.run` (src/unnamed/part_000, lines 109-111): an empty body,
to be overwritten in extension classes.  It reads nothing of the message
and returns `undefined`, modelled as `Unit`. -/
def Monitor.run (_m : Monitor) (_msg : KlasaMessage) : Unit := ()

/-- `Monitor.init` (src/unnamed/part_000, lines 119-121): an empty async
body; it resolves to `undefined`, modelled as `Unit`. -/
def Monitor.init (_m : Monitor) : Unit := ()

/-- A JSON value as produced by `Monitor.toJSON`: only strings and
booleans occur. -/
inductive JValue where
  | str (s : String)
  | bool (b : Bool)
deriving DecidableEq, Repr

/-- `Monitor.toJSON` (src/unnamed/part_000, lines 141-153): the object
literal with its nine properties, in source order, each reading the
instance's current field. -/
def Monitor.toJSON (m : Monitor) : List (String × JValue) :=
  [("dir", JValue.str m.dir),
   ("file", JValue.str m.file),
   ("name", JValue.str m.name),
   ("type", JValue.str m.type),
   ("enabled", JValue.bool m.enabled),
   ("ignoreBots", JValue.bool m.ignoreBots),
   ("ignoreSelf", JValue.bool m.ignoreSelf),
   ("ignoreOthers", JValue.bool m.ignoreOthers),
   ("ignoreWebhooks", JValue.bool m.ignoreWebhooks)]

/-- A recorded response handle of a command: an identity and a
deleted-state flag (`msg.deleted` in the source). -/
structure BDResponse where
  id : Nat
  deleted : Bool
deriving DecidableEq, Repr

/-- The slice of a command read by the bulk-delete handler:
`command.deletable`. -/
structure BDCommand where
  deletable : Bool
deriving DecidableEq, Repr

/-- A message of the bulk-delete payload: `message.command` is possibly
absent, and `message.responses` is the ordered collection of recorded
response handles. -/
structure BDMessage where
  command : Option BDCommand
  responses : List BDResponse
deriving DecidableEq, Repr

/-- The delete requests issued for one source message by
`default_1.run` (coreMessageDeleteBulk.js, lines 9-16), in issue order:
nothing unless `message.command && message.command.deletable`, otherwise
one `msg.delete()` per response with `!msg.deleted`, in response order. -/
def messageDeletes (m : BDMessage) : List Nat :=
  match m.command with
  | none => []
  | some c =>
      if c.deletable then
        (m.responses.filter fun r => !r.deleted).map BDResponse.id
      else []

/-- The full trace of delete requests issued by `default_1.run`
(coreMessageDeleteBulk.js, lines 8-17) over the values of the input
mapping, in issue order. -/
def bulkDeleteRun : List BDMessage → List Nat
  | [] => []
  | m :: rest => messageDeletes m ++ bulkDeleteRun rest

/-- State-passing semantics of the inner loop of `default_1.run` for one
source message: each awaited `msg.delete()` is an effect `deleteOp` on a
world state `W`, and the next iteration starts only from the world the
previous await produced. -/
def messageRunWorld {W : Type} (deleteOp : Nat → W → W)
    (m : BDMessage) (w : W) : W :=
  match m.command with
  | none => w
  | some c =>
      if c.deletable then
        m.responses.foldl
          (fun w r => if !r.deleted then deleteOp r.id w else w) w
      else w

/-- State-passing semantics of the whole of `default_1.run`: the outer
loop threads the world through each source message in turn. -/
def bulkDeleteRunWorld {W : Type} (deleteOp : Nat → W → W)
    (msgs : List BDMessage) (w : W) : W :=
  msgs.foldl (fun w m => messageRunWorld deleteOp m w) w

end Klasa

namespace Klasa

/-- Helper: a filtered-then-mapped fold coincides with the guarded fold
over the original list. -/
theorem foldl_filter_map_delete {W : Type} (deleteOp : Nat → W → W)
    (rs : List BDResponse) (w : W) :
    rs.foldl (fun w r => if !r.deleted then deleteOp r.id w else w) w =
      ((rs.filter fun r => !r.deleted).map BDResponse.id).foldl
        (fun w i => deleteOp i w) w := by
  induction rs generalizing w with
  | nil => rfl
  | cons r rest ih =>
      cases h : r.deleted with
      | true =>
          have : (r :: rest).foldl
              (fun w r => if !r.deleted then deleteOp r.id w else w) w =
              rest.foldl
                (fun w r => if !r.deleted then deleteOp r.id w else w) w := by
            simp [h]
          rw [this, ih, List.filter_cons_of_neg]
          simp [h]
      | false =>
          have : (r :: rest).foldl
              (fun w r => if !r.deleted then deleteOp r.id w else w) w =
              rest.foldl
                (fun w r => if !r.deleted then deleteOp r.id w else w)
                (deleteOp r.id w) := by
            simp [h]
          rw [this, ih, List.filter_cons_of_pos]
          · rfl
          · simp [h]

/-- C1: `shouldRun` returns true iff the monitor is enabled and no
enabled ignore-flag matches the message: not (ignoreBots and a bot
author), not (ignoreSelf and the author is the client's own user), not
(ignoreOthers and the author is not the client's own user), and not
(ignoreWebhooks and a webhook id is present). -/
theorem shouldRun_iff_formula (m : Monitor) (msg : KlasaMessage) :
    m.shouldRun msg = true ↔
      (m.enabled = true ∧
        ¬(m.ignoreBots = true ∧ msg.author.bot = true) ∧
        ¬(m.ignoreSelf = true ∧ m.client.user = msg.author) ∧
        ¬(m.ignoreOthers = true ∧ m.client.user ≠ msg.author) ∧
        ¬(m.ignoreWebhooks = true ∧ msg.webhookID.isSome = true)) := by
  by_cases hu : m.client.user = msg.author <;>
    cases he : m.enabled <;> cases hb : m.ignoreBots <;>
    cases hs : m.ignoreSelf <;> cases ho : m.ignoreOthers <;>
    cases hw : m.ignoreWebhooks <;> cases hab : msg.author.bot <;>
    cases hwid : msg.webhookID.isSome <;>
    simp_all [Monitor.shouldRun]

/-- C2: whenever the monitor's `enabled` flag is false, `shouldRun`
returns false for every message, regardless of the ignore-flags and of
the message's properties. -/
theorem shouldRun_false_of_disabled (m : Monitor) (msg : KlasaMessage)
    (h : m.enabled = false) : m.shouldRun msg = false := by
  simp [Monitor.shouldRun, h]

/-- Witness for C2: a disabled monitor with all ignore-flags false and a
plain message still yields `shouldRun = false`. -/
theorem shouldRun_false_of_disabled_witness :
    Monitor.shouldRun
      ⟨⟨⟨0, false⟩⟩, "d", "f.js", "f", "monitor", false, false, false, false, false⟩
      ⟨⟨1, false⟩, none⟩ = false :=
  shouldRun_false_of_disabled _ _ rfl

/-- C6: `shouldRun` is a pure function of the monitor's five
configuration flags and the message's boolean properties (bot flag,
author-identity comparison against the client's own user — which fixes
both author-equals-self and author-differs-from-self — and webhook-id
presence): any two monitor/message pairs agreeing on those data give the
same result.  Statelessness holds by the type of the embedding:
`Monitor.shouldRun : Monitor → KlasaMessage → Bool` returns only the
boolean and no updated state. -/
theorem shouldRun_pure_congruence (m₁ m₂ : Monitor) (g₁ g₂ : KlasaMessage)
    (he : m₁.enabled = m₂.enabled) (hb : m₁.ignoreBots = m₂.ignoreBots)
    (hs : m₁.ignoreSelf = m₂.ignoreSelf)
    (ho : m₁.ignoreOthers = m₂.ignoreOthers)
    (hw : m₁.ignoreWebhooks = m₂.ignoreWebhooks)
    (hbot : g₁.author.bot = g₂.author.bot)
    (hself : (m₁.client.user == g₁.author) = (m₂.client.user == g₂.author))
    (hweb : g₁.webhookID.isSome = g₂.webhookID.isSome) :
    m₁.shouldRun g₁ = m₂.shouldRun g₂ := by
  simp only [Monitor.shouldRun, he, hb, hs, ho, hw, hbot, hself, hweb]

/-- Witness for C6: two monitors differing in client, directory, file and
name but agreeing on the configuration flags and on the message's boolean
properties produce the same `shouldRun` result. -/
theorem shouldRun_pure_congruence_witness :
    Monitor.shouldRun
      ⟨⟨⟨0, false⟩⟩, "d1", "f1.js", "a", "monitor", true, true, true, false, true⟩
      ⟨⟨0, false⟩, none⟩ =
    Monitor.shouldRun
      ⟨⟨⟨5, false⟩⟩, "d2", "f2.js", "b", "monitor", true, true, true, false, true⟩
      ⟨⟨5, false⟩, none⟩ :=
  shouldRun_pure_congruence _ _ _ _ rfl rfl rfl rfl rfl rfl (by decide) rfl

/-- C10: a monitor with both `ignoreSelf` and `ignoreOthers` set (the
documented defaults) never runs: every author either equals or differs
from the client's own user, so one of the two ignore conjuncts always
fires and `shouldRun` is false on every message. -/
theorem shouldRun_false_of_ignoreSelf_and_ignoreOthers
    (m : Monitor) (msg : KlasaMessage)
    (hs : m.ignoreSelf = true) (ho : m.ignoreOthers = true) :
    m.shouldRun msg = false := by
  cases h : (m.client.user == msg.author) <;>
    simp [Monitor.shouldRun, hs, ho, h]

/-- Witness for C10: an enabled monitor with `ignoreSelf` and
`ignoreOthers` both true rejects a non-bot, non-webhook message from a
stranger. -/
theorem shouldRun_false_of_ignoreSelf_and_ignoreOthers_witness :
    Monitor.shouldRun
      ⟨⟨⟨0, false⟩⟩, "d", "f.js", "f", "monitor", true, false, true, true, false⟩
      ⟨⟨1, false⟩, none⟩ = false :=
  shouldRun_false_of_ignoreSelf_and_ignoreOthers _ _ rfl rfl

/-- C8: the base class's `run` is a no-op returning `undefined` for every
monitor and message, and the default `init` likewise does nothing; both
are pure `Unit`-valued functions in the embedding, touching no state. -/
theorem run_and_init_noop :
    (∀ (m : Monitor) (msg : KlasaMessage), m.run msg = ()) ∧
    (∀ m : Monitor, m.init = ()) :=
  ⟨fun _ _ => rfl, fun _ => rfl⟩

/-- C5: `toJSON` returns exactly the nine fields `dir`, `file`, `name`,
`type`, `enabled`, `ignoreBots`, `ignoreSelf`, `ignoreOthers`,
`ignoreWebhooks` in that order and no others, each holding the instance's
current field value; and every constructed monitor's `type` field — hence
the serialized `type` — equals `"monitor"`. -/
theorem toJSON_exact_nine_fields :
    (∀ m : Monitor, m.toJSON =
      [("dir", JValue.str m.dir),
       ("file", JValue.str m.file),
       ("name", JValue.str m.name),
       ("type", JValue.str m.type),
       ("enabled", JValue.bool m.enabled),
       ("ignoreBots", JValue.bool m.ignoreBots),
       ("ignoreSelf", JValue.bool m.ignoreSelf),
       ("ignoreOthers", JValue.bool m.ignoreOthers),
       ("ignoreWebhooks", JValue.bool m.ignoreWebhooks)]) ∧
    (∀ (c : Client) (d f : String) (o : MonitorOptions),
      (Monitor.construct c d f o).type = "monitor") :=
  ⟨fun _ => rfl, fun _ _ _ _ => rfl⟩

/-- C9: when the merged options carry no name or an empty-string name
(both falsy in JavaScript), the constructed monitor's name is the file
argument with its last three characters removed; when the merged name is
a non-empty string, the name equals it. -/
theorem construct_name_default (c : Client) (d f : String)
    (o : MonitorOptions) :
    (jsStrFalsy o.name = true →
      (Monitor.construct c d f o).name = f.dropRight 3) ∧
    (∀ s, o.name = some s → s.isEmpty = false →
      (Monitor.construct c d f o).name = s) := by
  constructor
  · intro h
    simp [Monitor.construct, h]
  · intro s hsome hne
    simp [Monitor.construct, jsStrFalsy, hsome, hne]

/-- Witness for C9: the file `"ping.js"` with absent name yields the name
`"ping"`, and with name `"pong"` yields `"pong"`. -/
theorem construct_name_default_witness :
    (Monitor.construct ⟨⟨0, false⟩⟩ "dir" "ping.js"
      ⟨none, true, true, true, true, true⟩).name = "ping" ∧
    (Monitor.construct ⟨⟨0, false⟩⟩ "dir" "ping.js"
      ⟨some "pong", true, true, true, true, true⟩).name = "pong" := by
  constructor
  · rw [(construct_name_default ⟨⟨0, false⟩⟩ "dir" "ping.js"
      ⟨none, true, true, true, true, true⟩).1 rfl]
    rfl
  · exact (construct_name_default ⟨⟨0, false⟩⟩ "dir" "ping.js"
      ⟨some "pong", true, true, true, true, true⟩).2 "pong" rfl rfl

/-- Helper shared by the bulk-delete theorems: the trace of the whole run
is the concatenation, in mapping order, of each message's own deletes. -/
theorem bulkDeleteRun_eq_bind (msgs : List BDMessage) :
    bulkDeleteRun msgs = msgs.flatMap messageDeletes := by
  induction msgs with
  | nil => rfl
  | cons m rest ih => simp [bulkDeleteRun, ih]

/-- C3: for every message of the input mapping whose command exists and
is deletable, the delete requests issued for it are exactly the ids of
its not-already-deleted responses, in order; and the run's full request
trace is the concatenation of the per-message requests, so those are
precisely the requests issued on that message's behalf. -/
theorem bulkDelete_deletable_requests (msgs : List BDMessage)
    (m : BDMessage) (c : BDCommand)
    (hc : m.command = some c) (hd : c.deletable = true) :
    messageDeletes m =
      (m.responses.filter fun r => r.deleted = false).map BDResponse.id ∧
    bulkDeleteRun msgs = msgs.flatMap messageDeletes := by
  refine ⟨?_, bulkDeleteRun_eq_bind msgs⟩
  simp [messageDeletes, hc, hd]

/-- Witness for C3: a single message with a deletable command and two
responses, one already deleted (id 10) and one not (id 11), issues
exactly one delete request, for id 11. -/
theorem bulkDelete_deletable_requests_witness :
    messageDeletes ⟨some ⟨true⟩, [⟨10, true⟩, ⟨11, false⟩]⟩ = [11] ∧
    bulkDeleteRun [⟨some ⟨true⟩, [⟨10, true⟩, ⟨11, false⟩]⟩] = [11] := by
  have h := bulkDelete_deletable_requests
    [⟨some ⟨true⟩, [⟨10, true⟩, ⟨11, false⟩]⟩]
    ⟨some ⟨true⟩, [⟨10, true⟩, ⟨11, false⟩]⟩ ⟨true⟩ rfl rfl
  exact ⟨by simpa using h.1, by rw [h.2]; rfl⟩

/-- C4: a message with no associated command, or whose command is not
deletable, contributes no delete request at all. -/
theorem bulkDelete_no_requests (m : BDMessage)
    (h : m.command = none ∨
      ∃ c, m.command = some c ∧ c.deletable = false) :
    messageDeletes m = [] := by
  rcases h with h | ⟨c, hc, hd⟩
  · simp [messageDeletes, h]
  · simp [messageDeletes, hc, hd]

/-- Witness for C4: a command-less message with a live response, and a
message with a non-deletable command, both issue no delete request. -/
theorem bulkDelete_no_requests_witness :
    messageDeletes ⟨none, [⟨1, false⟩]⟩ = [] ∧
    messageDeletes ⟨some ⟨false⟩, [⟨1, false⟩]⟩ = [] :=
  ⟨bulkDelete_no_requests _ (Or.inl rfl),
   bulkDelete_no_requests _ (Or.inr ⟨⟨false⟩, rfl, rfl⟩)⟩

/-- C7: within one source message, the handler's state-passing semantics
equals the sequential left fold of the delete effect over that message's
request list in response-iteration order: each delete is applied to the
world produced by the previous one — deletes are issued one at a time,
each awaited before the next, never concurrently. -/
theorem bulkDelete_sequential_per_message {W : Type}
    (deleteOp : Nat → W → W) (m : BDMessage) (w : W) :
    messageRunWorld deleteOp m w =
      (messageDeletes m).foldl (fun w i => deleteOp i w) w := by
  cases hc : m.command with
  | none => simp [messageRunWorld, messageDeletes, hc]
  | some c =>
      by_cases hd : c.deletable = true
      · simp only [messageRunWorld, messageDeletes, hc, hd, if_true]
        exact foldl_filter_map_delete deleteOp m.responses w
      · simp [messageRunWorld, messageDeletes, hc, hd]

end Klasa
